import Mathlib

/-!
Verification development for the discord-music-player bot (src/src/bot.ts).

The file shallowly embeds the interactionCreate handler of bot.ts as a pure
function from an interaction description, an environment (the outcomes of the
external awaits: entersState, ytdl.validateURL, yts search, Track.from) and the
registry state (the subscriptions Map) to a new registry state, a list of
sessions torn down, and a trace of externally visible actions (replies, player
commands, connection commands, callback invocations).

The internals of MusicSubscription (music/subscription.ts) are not part of the
repository sources; where a claim depends on them they are modelled from the
specification, and each such definition carries a doc comment saying so.

The racy portion of the play branch (registry lookup at line 101 separated from
the create-and-set block at lines 111-127 by the await at line 104) is
additionally embedded as a small-step interleaving model of two handler tasks.
-/

/-- Lifecycle callback kinds attached to a Track (onStart, onFinish, onError). -/
inductive CbKind
  | onStart
  | onFinish
  | onError
deriving DecidableEq, Repr

/-- A resolved track: the url passed to Track.from and its display title
(music/track.ts metadata as used by bot.ts). -/
structure Track where
  url : String
  title : String
deriving DecidableEq, Repr

/-- Externally visible effects performed by the interactionCreate handler of
bot.ts, in program order. -/
inductive Act
  | deferReply
  | followUp (msg : String)
  | reply (msg : String)
  | joinVoice (channelId : String)
  | readyObserved
  | trackResolved (url : String)
  | enqueued (t : Track)
  | invokeCb (title : String) (k : CbKind)
  | playerStop
  | playerPause
  | playerUnpause
  | connDestroy
deriving DecidableEq, Repr

/-- AudioPlayer states of the @discordjs/voice library (AudioPlayerStatus). -/
inductive PlayerStatus
  | Idle
  | Buffering
  | Playing
  | AutoPaused
  | Paused
deriving DecidableEq, Repr

/-- VoiceConnection states of the @discordjs/voice library
(VoiceConnectionStatus). -/
inductive ConnState
  | Signalling
  | Connecting
  | Ready
  | Disconnected
  | Destroyed
deriving DecidableEq, Repr

/-- The observable state of one MusicSubscription: its voice connection state,
its audio player state, the currently loaded track (the resource metadata read
by the queue command when the player is not Idle), and the pending queue. -/
structure MusicSubscription where
  connState : ConnState
  playerStatus : PlayerStatus
  current : Option Track
  queue : List Track
deriving DecidableEq, Repr

/-- A fresh MusicSubscription as constructed at bot.ts lines 117-124:
new MusicSubscription(joinVoiceChannel(...)); the connection starts its join
handshake (Connecting per the specification), the player is Idle and the queue
is empty. -/
def newSubscription (_channelId : String) : MusicSubscription :=
  { connState := ConnState.Connecting
    playerStatus := PlayerStatus.Idle
    current := none
    queue := [] }

/-- The subscriptions Map of bot.ts line 96, guild id to MusicSubscription. -/
abbrev Registry := List (String × MusicSubscription)

/-- Lookup in the subscriptions Map (Map.prototype.get). -/
def regGet : Registry → String → Option MusicSubscription
  | [], _ => none
  | (k, v) :: rest, g => if k = g then some v else regGet rest g

/-- Insertion or replacement in the subscriptions Map (Map.prototype.set). -/
def regSet : Registry → String → MusicSubscription → Registry
  | [], g, s => [(g, s)]
  | (k, v) :: rest, g, s => if k = g then (g, s) :: rest else (k, v) :: regSet rest g s

/-- Removal from the subscriptions Map (Map.prototype.delete). -/
def regDelete : Registry → String → Registry
  | [], _ => []
  | (k, v) :: rest, g => if k = g then regDelete rest g else (k, v) :: regDelete rest g

/-- Outcomes of the external awaits performed by the play branch of bot.ts:
whether entersState(connection, Ready, 20e3) resolves within the bound, the
ytdl.validateURL predicate, the urls returned by the yts text search, and the
result of Track.from (none models a thrown error). -/
structure Env where
  entersStateReady : Bool
  validateURL : String → Bool
  search : String → List String
  trackFrom : String → Option Track

/-- The fields of a discord.js Interaction that bot.ts reads: whether it is a
command, its guild id, the command name, the required song option, whether the
member field is a GuildMember instance, and the voice channel the member is in.
The song field models interaction.options.get with the non-null assertions of
line 107 (the option is declared required). -/
structure Interaction where
  isCommand : Bool
  guildId : Option String
  commandName : String
  song : String
  isGuildMember : Bool
  voiceChannel : Option String

/-- Result of one handler invocation: the new subscriptions Map, the sessions
removed from the Map and torn down during this invocation (in their
post-teardown state), and the trace of externally visible actions. -/
structure HRes where
  registry : Registry
  torn : List MusicSubscription
  actions : List Act
deriving DecidableEq, Repr

/-- Reply sent at bot.ts line 131 when no subscription exists and none was
created. -/
def joinPromptMsg : String := "Join a voice channel and then try that again!"

/-- Reply sent at bot.ts line 146 when entersState Ready times out. -/
def timeoutMsg : String := "Failed to join voice channel within 20 seconds, please try again later!"

/-- Reply sent at bot.ts line 185 when resolution or Track.from fails. -/
def playFailMsg : String := "Failed to play track, please try again later!"

/-- Reply sent by the skip, queue, pause, resume and leave branches when no
subscription exists for the guild. -/
def notPlayingMsg : String := "Not playing in this server!"

/-- Success reply of bot.ts line 181. -/
def enqueuedMsg (t : Track) : String := "Enqueued **" ++ t.title ++ "**"

/-- Reply of the skip branch at bot.ts line 195. -/
def skippedMsg : String := "Skipped song!"

/-- Header of the queue reply when the player is Idle (bot.ts line 204). -/
def nothingPlayingMsg : String := "Nothing is currently playing!"

/-- Reply of the pause branch at bot.ts line 222. -/
def pausedMsg : String := "Paused!"

/-- Reply of the resume branch at bot.ts line 229. -/
def unpausedMsg : String := "Unpaused!"

/-- Reply of the leave branch at bot.ts line 237. -/
def leftMsg : String := "Left channel!"

/-- Reply of the minecraft branch at bot.ts line 242. -/
def mcMsg : String := "mc"

/-- Reply of the serverstatus branch at bot.ts line 244. -/
def statusMsg : String := "status"

/-- Reply of the fallback branch at bot.ts line 246. -/
def unknownMsg : String := "Unknown command"

/-- Lines 109-127 of bot.ts: if no subscription exists for the guild and the
member is a GuildMember inside a voice channel, construct a MusicSubscription
around joinVoiceChannel and store it in the Map. Returns the subscription the
rest of the branch works with (none when absent and not creatable), the updated
Map, and the actions emitted. -/
def acquireSub (i : Interaction) (gid : String) (subs : Registry) :
    Option MusicSubscription × Registry × List Act :=
  match regGet subs gid with
  | some s => (some s, subs, [])
  | none =>
    if i.isGuildMember then
      match i.voiceChannel with
      | some ch =>
        (some (newSubscription ch), regSet subs gid (newSubscription ch),
         [Act.joinVoice ch])
      | none => (none, subs, [])
    else (none, subs, [])

/-- Lines 152-159 of bot.ts: if the song option is not a valid URL, run the yts
text search and take the first hit; an empty result list models the thrown
Error. Returns the url handed to Track.from. -/
def resolveSong (env : Env) (song : String) : Option String :=
  if env.validateURL song then some song
  else
    match env.search song with
    | [] => none
    | v :: _ => some v

/-- A subscription whose connection has been observed Ready: entersState
resolving at line 139 means the shared VoiceConnection object reached the Ready
state. -/
def readySub (s : MusicSubscription) : MusicSubscription :=
  { s with connState := ConnState.Ready }

/-- Modelled from the spec: MusicSubscription.enqueue lives in
music/subscription.ts, which is not under src. Spec section 4.4 transition 2:
enqueue appends the item to the Queue; if the PlaybackEngine is Idle and the
connection is Ready, it immediately pops the front and plays it, which invokes
the popped item's onStart callback exactly once (spec section 4.2). -/
def MusicSubscription.enqueue (s : MusicSubscription) (t : Track) :
    MusicSubscription × List Act :=
  if s.playerStatus = PlayerStatus.Idle ∧ s.connState = ConnState.Ready then
    match s.queue ++ [t] with
    | [] => ({ s with queue := s.queue ++ [t] }, [])
    | h :: rest =>
      ({ s with queue := rest, playerStatus := PlayerStatus.Playing, current := some h },
       [Act.invokeCb h.title CbKind.onStart])
  else
    ({ s with queue := s.queue ++ [t] }, [])

/-- Modelled from the spec: the Idle-transition reaction lives in
music/subscription.ts, which is not under src. Spec section 4.4 transition 3:
on a PlaybackEngine transition to Idle, pop the front of the Queue; if an item
is present, play it (invoking its onStart); if the Queue is empty, remain Idle
with no current item. -/
def MusicSubscription.onIdle (s : MusicSubscription) :
    MusicSubscription × List Act :=
  match s.queue with
  | [] => ({ s with playerStatus := PlayerStatus.Idle, current := none }, [])
  | t :: rest =>
    ({ s with queue := rest, playerStatus := PlayerStatus.Playing, current := some t },
     [Act.invokeCb t.title CbKind.onStart])

/-- Modelled from the spec: the teardown that voiceConnection.destroy at bot.ts
line 235 triggers inside music/subscription.ts, which is not under src. Spec
section 4.4 transition 5: leave transitions the connection to Destroyed and
discards the Queue contents without invoking their callbacks. -/
def MusicSubscription.onLeave (s : MusicSubscription) : MusicSubscription :=
  { s with
    connState := ConnState.Destroyed
    playerStatus := PlayerStatus.Idle
    current := none
    queue := [] }

/-- AudioPlayer.pause of @discordjs/voice: effective only while Playing,
otherwise leaves the player state unchanged. -/
def pausePlayer (s : MusicSubscription) : MusicSubscription :=
  if s.playerStatus = PlayerStatus.Playing then
    { s with playerStatus := PlayerStatus.Paused }
  else s

/-- AudioPlayer.unpause of @discordjs/voice: effective only while Paused,
otherwise leaves the player state unchanged. -/
def unpausePlayer (s : MusicSubscription) : MusicSubscription :=
  if s.playerStatus = PlayerStatus.Paused then
    { s with playerStatus := PlayerStatus.Playing }
  else s

/-- Newline separator used by the queue reply (the join at bot.ts line 213). -/
def newlineStr : String := "\x0a"

/-- Lines 210-213 of bot.ts: the listing of up to the first five queued tracks,
one numbered line per track, in queue order. -/
def queueListing (q : List Track) : String :=
  String.intercalate newlineStr
    ((q.take 5).enum.map (fun p => toString (p.1 + 1) ++ ") " ++ p.2.title))

/-- Lines 202-208 of bot.ts: the currently-playing header of the queue reply;
when the player is Idle nothing is playing, otherwise the title of the current
resource's metadata is shown. -/
def currentMsg (s : MusicSubscription) : String :=
  if s.playerStatus = PlayerStatus.Idle then nothingPlayingMsg
  else ("Playing **" ++ ((s.current.map Track.title).getD ("")) ++ "**")

/-- Line 215 of bot.ts: the full queue reply. -/
def queueReplyMsg (s : MusicSubscription) : String :=
  currentMsg s ++ newlineStr ++ newlineStr ++ queueListing s.queue

/-- Lines 103-188 of bot.ts, the play branch: defer the reply, acquire or
create the subscription (telling the user to join a voice channel when neither
is possible), wait up to 20 seconds for the connection to become Ready (telling
the user on timeout and leaving everything in place), resolve the song to a
url, build the Track (failures of either are caught and reported without
touching the session), then enqueue it and confirm. -/
def handlePlay (env : Env) (i : Interaction) (gid : String) (subs : Registry) : HRes :=
  match acquireSub i gid subs with
  | (none, subs1, pre) =>
    ⟨subs1, [], Act.deferReply :: pre ++ [Act.followUp joinPromptMsg]⟩
  | (some s, subs1, pre) =>
    if env.entersStateReady then
      match resolveSong env i.song with
      | none =>
        ⟨regSet subs1 gid (readySub s), [],
         Act.deferReply :: pre ++ [Act.readyObserved, Act.followUp playFailMsg]⟩
      | some url =>
        match env.trackFrom url with
        | none =>
          ⟨regSet subs1 gid (readySub s), [],
           Act.deferReply :: pre ++
             [Act.readyObserved, Act.trackResolved url, Act.followUp playFailMsg]⟩
        | some tr =>
          ⟨regSet subs1 gid (MusicSubscription.enqueue (readySub s) tr).1, [],
           Act.deferReply :: pre ++
             Act.readyObserved :: Act.trackResolved url :: Act.enqueued tr ::
               ((MusicSubscription.enqueue (readySub s) tr).2 ++
                 [Act.followUp (enqueuedMsg tr)])⟩
    else
      ⟨subs1, [], Act.deferReply :: pre ++ [Act.followUp timeoutMsg]⟩

/-- The interactionCreate handler of bot.ts lines 99-248: ignore non-command or
guild-less interactions, then dispatch on the command name. Each branch other
than play replies directly; skip, queue, pause, resume and leave all reply that
nothing is playing when no subscription exists for the guild. -/
def handleInteraction (env : Env) (i : Interaction) (subs : Registry) : HRes :=
  match i.isCommand, i.guildId with
  | false, _ => ⟨subs, [], []⟩
  | true, none => ⟨subs, [], []⟩
  | true, some gid =>
    if i.commandName = "play" then handlePlay env i gid subs
    else if i.commandName = "skip" then
      match regGet subs gid with
      | some _ => ⟨subs, [], [Act.playerStop, Act.reply skippedMsg]⟩
      | none => ⟨subs, [], [Act.reply notPlayingMsg]⟩
    else if i.commandName = "queue" then
      match regGet subs gid with
      | some s => ⟨subs, [], [Act.reply (queueReplyMsg s)]⟩
      | none => ⟨subs, [], [Act.reply notPlayingMsg]⟩
    else if i.commandName = "pause" then
      match regGet subs gid with
      | some s =>
        ⟨regSet subs gid (pausePlayer s), [], [Act.playerPause, Act.reply pausedMsg]⟩
      | none => ⟨subs, [], [Act.reply notPlayingMsg]⟩
    else if i.commandName = "resume" then
      match regGet subs gid with
      | some s =>
        ⟨regSet subs gid (unpausePlayer s), [], [Act.playerUnpause, Act.reply unpausedMsg]⟩
      | none => ⟨subs, [], [Act.reply notPlayingMsg]⟩
    else if i.commandName = "leave" then
      match regGet subs gid with
      | some s =>
        ⟨regDelete subs gid, [MusicSubscription.onLeave s],
         [Act.connDestroy, Act.reply leftMsg]⟩
      | none => ⟨subs, [], [Act.reply notPlayingMsg]⟩
    else if i.commandName = "minecraft" then ⟨subs, [], [Act.reply mcMsg]⟩
    else if i.commandName = "serverstatus" then ⟨subs, [], [Act.reply statusMsg]⟩
    else ⟨subs, [], [Act.reply unknownMsg]⟩

/-- Program counter of one asynchronous play-branch task in the race model:
atStart is the synchronous prefix that reads subscriptions.get at line 101 and
then suspends at the await interaction.deferReply of line 104; afterDefer is
the synchronous block from line 107 to line 143 that checks the stale local
variable and, when it is empty, constructs a MusicSubscription and stores it
with subscriptions.set before suspending again at the entersState await. -/
inductive RacePC
  | atStart
  | afterDefer
  | done
deriving DecidableEq, Repr

/-- One asynchronous invocation of the play branch: its program counter and the
local variable named subscription, holding the creation index of the
MusicSubscription it obtained (none while unset). -/
structure RaceTask where
  pc : RacePC
  localSub : Option Nat
deriving DecidableEq, Repr

/-- The shared state of the race model for one previously-unseen guild: the
subscriptions Map entry for that guild (by creation index), the next creation
index, the number of MusicSubscription constructions so far, and the two
racing play-command tasks. Both requesters are GuildMembers inside a voice
channel, so the create branch of lines 111-127 applies. -/
structure RaceState where
  reg : Option Nat
  nextId : Nat
  created : Nat
  t0 : RaceTask
  t1 : RaceTask
deriving DecidableEq, Repr

/-- Run one task of the race model until its next suspension point. From
atStart: read the Map into the local variable (line 101) and suspend at the
deferReply await. From afterDefer: if the local variable is empty, construct a
MusicSubscription and set it into the Map (lines 111-127); either way proceed
to the entersState await, where this model stops tracking the task. -/
def taskStep (st : RaceState) (t : RaceTask) : RaceTask × RaceState :=
  match t.pc with
  | RacePC.atStart =>
    ({ t with localSub := st.reg, pc := RacePC.afterDefer }, st)
  | RacePC.afterDefer =>
    match t.localSub with
    | some _ => ({ t with pc := RacePC.done }, st)
    | none =>
      ({ t with localSub := some st.nextId, pc := RacePC.done },
       { st with
          reg := some st.nextId
          nextId := st.nextId + 1
          created := st.created + 1 })
  | RacePC.done => (t, st)

/-- Advance the task selected by the scheduler (false is task 0, true is
task 1) by one synchronous block. -/
def raceStep (st : RaceState) (pick : Bool) : RaceState :=
  if pick then
    match taskStep st st.t1 with
    | (t, st1) => { st1 with t1 := t }
  else
    match taskStep st st.t0 with
    | (t, st1) => { st1 with t0 := t }

/-- Initial race state: no subscription for the guild, no constructions yet,
both tasks dispatched at their synchronous prefix. -/
def raceInit : RaceState :=
  { reg := none, nextId := 0, created := 0
    t0 := { pc := RacePC.atStart, localSub := none }
    t1 := { pc := RacePC.atStart, localSub := none } }

/-- Run the two racing play-branch tasks under a given schedule. -/
def runRace (sched : List Bool) : RaceState :=
  sched.foldl raceStep raceInit

/-- Looking up the key just set returns the value set. -/
theorem regGet_regSet_self (subs : Registry) (g : String) (s : MusicSubscription) :
    regGet (regSet subs g s) g = some s := by
  induction subs with
  | nil => simp [regGet, regSet]
  | cons hd tl ih =>
    by_cases h : hd.1 = g
    · simp [regGet, regSet, h]
    · simp [regGet, regSet, h, ih]

/-- Looking up a key just deleted returns none. -/
theorem regGet_regDelete_self (subs : Registry) (g : String) :
    regGet (regDelete subs g) g = none := by
  induction subs with
  | nil => simp [regGet, regDelete]
  | cons hd tl ih =>
    by_cases h : hd.1 = g
    · simp [regDelete, h, ih]
    · simp [regGet, regDelete, h, ih]

/-- The subscription-acquisition step of the play branch has exactly three
outcomes: an existing subscription is returned with the Map untouched, a fresh
one is created and stored when the member is in a voice channel, or nothing is
returned and the Map is untouched. -/
theorem acquireSub_cases (i : Interaction) (gid : String) (subs : Registry) :
    (∃ s, regGet subs gid = some s ∧ acquireSub i gid subs = (some s, subs, []))
    ∨ (regGet subs gid = none ∧ ∃ ch, i.isGuildMember = true ∧ i.voiceChannel = some ch ∧
        acquireSub i gid subs =
          (some (newSubscription ch), regSet subs gid (newSubscription ch),
           [Act.joinVoice ch]))
    ∨ (regGet subs gid = none ∧ acquireSub i gid subs = (none, subs, [])) := by
  unfold acquireSub
  cases hg : regGet subs gid with
  | some s => exact Or.inl ⟨s, rfl, rfl⟩
  | none =>
    cases hm : i.isGuildMember with
    | false => exact Or.inr (Or.inr ⟨rfl, by simp⟩)
    | true =>
      cases hv : i.voiceChannel with
      | none => exact Or.inr (Or.inr ⟨rfl, by simp⟩)
      | some ch => exact Or.inr (Or.inl ⟨rfl, ch, rfl, rfl, by simp⟩)

/-- The action trace of the spec-modelled enqueue is either empty or a single
onStart callback invocation. -/
theorem enqueue_acts (s : MusicSubscription) (t : Track) :
    (MusicSubscription.enqueue s t).2 = []
    ∨ ∃ u, (MusicSubscription.enqueue s t).2 = [Act.invokeCb u CbKind.onStart] := by
  unfold MusicSubscription.enqueue
  split
  · split
    · exact Or.inl rfl
    · exact Or.inr ⟨_, rfl⟩
  · exact Or.inl rfl

/-- C1: the claim says that when two play-command requestSession calls race on
a previously-unseen room identity, exactly one SessionCoordinator is created
and both callers obtain the same instance, the registry check-then-create being
atomic. The code violates this: the lookup at bot.ts line 101 is separated from
the check-and-set at lines 111-127 by the await at line 104, so under the
interleaving in which both tasks run their synchronous prefix before either
resumes, each task sees a stale empty local variable and constructs its own
MusicSubscription; two are created, the callers hold different instances, and
the second Map.set overwrites the first. Under the non-overlapping schedule the
claimed behavior does hold: one construction and both callers share it. -/
theorem race_duplicate_session_eval :
    (runRace [false, true, false, true]).created = 2
    ∧ (runRace [false, true, false, true]).t0.localSub = some 0
    ∧ (runRace [false, true, false, true]).t1.localSub = some 1
    ∧ (runRace [false, true, false, true]).t0.localSub
        ≠ (runRace [false, true, false, true]).t1.localSub
    ∧ (runRace [false, true, false, true]).reg = some 1
    ∧ (runRace [false, false, true, true]).created = 1
    ∧ (runRace [false, false, true, true]).t0.localSub = some 0
    ∧ (runRace [false, false, true, true]).t0.localSub
        = (runRace [false, false, true, true]).t1.localSub := by
  decide

/-- C10: every interaction that is not a command, or that carries no guild
identity, is ignored entirely: the handler returns with no action emitted, no
session torn down, and the registry exactly as it was. -/
theorem non_command_interactions_ignored (env : Env) (i : Interaction) (subs : Registry)
    (h : i.isCommand = false ∨ i.guildId = none) :
    handleInteraction env i subs = ⟨subs, [], []⟩ := by
  unfold handleInteraction
  rcases h with h | h
  · rw [h]
  · cases hc : i.isCommand with
    | false => rfl
    | true => rw [h]

/-- Closed witness for C10 at a concrete non-command interaction. -/
theorem non_command_interactions_ignored_witness :
    handleInteraction
      { entersStateReady := true, validateURL := fun _ => true
        search := fun _ => [], trackFrom := fun _ => none }
      { isCommand := false, guildId := none, commandName := "play"
        song := "x", isGuildMember := true, voiceChannel := none }
      [] = ⟨[], [], []⟩ :=
  non_command_interactions_ignored _ _ [] (Or.inl rfl)

/-- C9: each of the skip, queue, pause, resume and leave commands, issued for a
guild with no live subscription, replies that nothing is playing and leaves the
registry and all session state unchanged. -/
theorem no_session_commands_reply_not_playing (env : Env) (i : Interaction)
    (subs : Registry) (gid : String)
    (hC : i.isCommand = true) (hG : i.guildId = some gid)
    (hs : regGet subs gid = none)
    (hN : i.commandName = "skip" ∨ i.commandName = "queue" ∨ i.commandName = "pause"
          ∨ i.commandName = "resume" ∨ i.commandName = "leave") :
    handleInteraction env i subs = ⟨subs, [], [Act.reply notPlayingMsg]⟩ := by
  unfold handleInteraction
  rw [hC, hG]
  rcases hN with h | h | h | h | h <;>
    simp [h, hs, show ("skip" : String) ≠ "play" by decide,
      show ("queue" : String) ≠ "play" by decide,
      show ("queue" : String) ≠ "skip" by decide,
      show ("pause" : String) ≠ "play" by decide,
      show ("pause" : String) ≠ "skip" by decide,
      show ("pause" : String) ≠ "queue" by decide,
      show ("resume" : String) ≠ "play" by decide,
      show ("resume" : String) ≠ "skip" by decide,
      show ("resume" : String) ≠ "queue" by decide,
      show ("resume" : String) ≠ "pause" by decide,
      show ("leave" : String) ≠ "play" by decide,
      show ("leave" : String) ≠ "skip" by decide,
      show ("leave" : String) ≠ "queue" by decide,
      show ("leave" : String) ≠ "pause" by decide,
      show ("leave" : String) ≠ "resume" by decide]

/-- Closed witness for C9: a pause command in a guild with an empty registry. -/
theorem no_session_commands_reply_not_playing_witness :
    handleInteraction
      { entersStateReady := true, validateURL := fun _ => true
        search := fun _ => [], trackFrom := fun _ => none }
      { isCommand := true, guildId := some ("g1"), commandName := "pause"
        song := "x", isGuildMember := true, voiceChannel := none }
      [] = ⟨[], [], [Act.reply notPlayingMsg]⟩ :=
  no_session_commands_reply_not_playing _ _ [] ("g1") rfl rfl rfl
    (Or.inr (Or.inr (Or.inl rfl)))

/-- The play branch never tears a session down and never destroys a
connection, whatever the environment and registry. -/
theorem handlePlay_frame (env : Env) (i : Interaction) (gid : String) (subs : Registry) :
    (handlePlay env i gid subs).torn = []
    ∧ Act.connDestroy ∉ (handlePlay env i gid subs).actions := by
  unfold handlePlay
  rcases acquireSub_cases i gid subs with ⟨s, hg, hA⟩ | ⟨hg, ch, hm, hv, hA⟩ | ⟨hg, hA⟩
  · rw [hA]
    cases hE : env.entersStateReady
    · simp [hE]
    · cases hRS : resolveSong env i.song with
      | none => simp [hE, hRS]
      | some url =>
        cases hT : env.trackFrom url with
        | none => simp [hE, hRS, hT]
        | some tr =>
          rcases enqueue_acts (readySub s) tr with he | ⟨u, he⟩ <;> simp [hE, hRS, hT, he]
  · rw [hA]
    cases hE : env.entersStateReady
    · simp [hE]
    · cases hRS : resolveSong env i.song with
      | none => simp [hE, hRS]
      | some url =>
        cases hT : env.trackFrom url with
        | none => simp [hE, hRS, hT]
        | some tr =>
          rcases enqueue_acts (readySub (newSubscription ch)) tr with he | ⟨u, he⟩ <;>
            simp [hE, hRS, hT, he]
  · rw [hA]
    simp

/-- Sample track used by the witnesses. -/
def trackA : Track := { url := "https://a.example/v", title := "Alpha" }

/-- Second sample track used by the witnesses. -/
def trackB : Track := { url := "https://b.example/v", title := "Beta" }

/-- Third sample track used by the witnesses. -/
def trackC : Track := { url := "https://c.example/v", title := "Gamma" }

/-- Sample guild id used by the witnesses. -/
def gidA : String := "guild1"

/-- Sample voice channel id used by the witnesses. -/
def chA : String := "vc1"

/-- Sample live subscription used by the witnesses. -/
def sampleSub : MusicSubscription :=
  { connState := ConnState.Ready, playerStatus := PlayerStatus.Playing
    current := some trackA, queue := [trackB, trackC] }

/-- Sample registry holding one live subscription. -/
def subsOne : Registry := [(gidA, sampleSub)]

/-- Sample play interaction used by the witnesses. -/
def playI : Interaction :=
  { isCommand := true, guildId := some gidA, commandName := "play"
    song := "alpha", isGuildMember := true, voiceChannel := some chA }

/-- Sample environment in which every external await succeeds. -/
def sampleEnvOk : Env :=
  { entersStateReady := true
    validateURL := fun _ => true
    search := fun _ => []
    trackFrom := fun u => some { url := u, title := "Resolved" } }

/-- Sample environment in which the entersState wait times out. -/
def sampleEnvTimeout : Env := { sampleEnvOk with entersStateReady := false }

/-- C2: when the 20-second readiness wait of the play branch times out, the
requester is told the join failed; the session (whether pre-existing or just
created, still Connecting) is neither destroyed nor removed from the registry,
no teardown happens and no destroy is issued, so the session may become usable
later. -/
theorem join_timeout_surfaced_session_kept (env : Env) (i : Interaction) (subs : Registry)
    (gid ch : String) (s : MusicSubscription)
    (hC : i.isCommand = true) (hG : i.guildId = some gid) (hN : i.commandName = "play")
    (hR : env.entersStateReady = false) :
    (regGet subs gid = some s →
      handleInteraction env i subs = ⟨subs, [], [Act.deferReply, Act.followUp timeoutMsg]⟩)
    ∧ (regGet subs gid = none → i.isGuildMember = true → i.voiceChannel = some ch →
        handleInteraction env i subs
          = ⟨regSet subs gid (newSubscription ch), [],
             [Act.deferReply, Act.joinVoice ch, Act.followUp timeoutMsg]⟩
        ∧ regGet (regSet subs gid (newSubscription ch)) gid = some (newSubscription ch)
        ∧ (newSubscription ch).connState = ConnState.Connecting)
    ∧ (handleInteraction env i subs).torn = []
    ∧ Act.connDestroy ∉ (handleInteraction env i subs).actions := by
  have hH : handleInteraction env i subs = handlePlay env i gid subs := by
    unfold handleInteraction
    rw [hC, hG]
    simp [hN]
  refine ⟨?_, ?_, ?_, ?_⟩
  · intro hs
    rw [hH]
    unfold handlePlay
    simp [acquireSub, hs, hR]
  · intro hs hm hv
    rw [hH]
    unfold handlePlay
    simp [acquireSub, hs, hm, hv, hR, regGet_regSet_self, newSubscription]
  · rw [hH]
    exact (handlePlay_frame env i gid subs).1
  · rw [hH]
    exact (handlePlay_frame env i gid subs).2

/-- Closed witness for C2: timeout against a registry holding a live session. -/
theorem join_timeout_surfaced_session_kept_witness :
    handleInteraction sampleEnvTimeout playI subsOne
      = ⟨subsOne, [], [Act.deferReply, Act.followUp timeoutMsg]⟩ :=
  (join_timeout_surfaced_session_kept sampleEnvTimeout playI subsOne gidA chA sampleSub
    rfl rfl rfl rfl).1 (by decide)

/-- C3: when resolution of a play request fails (the input is not a valid URL
and the text search returns nothing, or Track.from throws), the failure is
reported to the requester via the catch at bot.ts lines 183-188, no track is
enqueued, and the session is untouched: it stays in the registry with its queue
exactly as before and its connection not destroyed. -/
theorem resolution_failure_surfaced_state_unaffected (env : Env) (i : Interaction)
    (subs : Registry) (gid : String) (s : MusicSubscription)
    (hC : i.isCommand = true) (hG : i.guildId = some gid) (hN : i.commandName = "play")
    (hs : regGet subs gid = some s) (hR : env.entersStateReady = true) :
    (resolveSong env i.song = none →
      handleInteraction env i subs
        = ⟨regSet subs gid (readySub s), [],
           [Act.deferReply, Act.readyObserved, Act.followUp playFailMsg]⟩)
    ∧ (∀ url, resolveSong env i.song = some url → env.trackFrom url = none →
        handleInteraction env i subs
          = ⟨regSet subs gid (readySub s), [],
             [Act.deferReply, Act.readyObserved, Act.trackResolved url,
              Act.followUp playFailMsg]⟩)
    ∧ regGet (regSet subs gid (readySub s)) gid = some (readySub s)
    ∧ (readySub s).queue = s.queue
    ∧ (readySub s).connState ≠ ConnState.Destroyed
    ∧ (∀ t, Act.enqueued t ∉
        [Act.deferReply, Act.readyObserved, Act.followUp playFailMsg])
    ∧ (∀ t url, Act.enqueued t ∉
        [Act.deferReply, Act.readyObserved, Act.trackResolved url,
         Act.followUp playFailMsg]) := by
  have hH : handleInteraction env i subs = handlePlay env i gid subs := by
    unfold handleInteraction
    rw [hC, hG]
    simp [hN]
  refine ⟨?_, ?_, regGet_regSet_self subs gid (readySub s), rfl, by simp [readySub], ?_, ?_⟩
  · intro hRS
    rw [hH]
    unfold handlePlay
    simp [acquireSub, hs, hR, hRS]
  · intro url hRS hT
    rw [hH]
    unfold handlePlay
    simp [acquireSub, hs, hR, hRS, hT]
  · intro t
    simp
  · intro t url
    simp

/-- Sample environment in which the connection becomes Ready but the song
resolves to no result (invalid URL and empty search). -/
def sampleEnvNoResult : Env :=
  { sampleEnvOk with validateURL := fun _ => false, search := fun _ => [] }

/-- Closed witness for C3: a play command whose search yields nothing, against
a registry holding a live session. -/
theorem resolution_failure_surfaced_state_unaffected_witness :
    handleInteraction sampleEnvNoResult playI subsOne
      = ⟨regSet subsOne gidA (readySub sampleSub), [],
         [Act.deferReply, Act.readyObserved, Act.followUp playFailMsg]⟩ :=
  (resolution_failure_surfaced_state_unaffected sampleEnvNoResult playI subsOne gidA
    sampleSub rfl rfl rfl (by decide) rfl).1 (by decide)

/-- C6: a play request for a guild with no session and a requester who is not
a GuildMember in a voice channel creates nothing: the registry is returned
unchanged and the requester is told to join a voice channel first; when the
requester is in a voice channel, a session is created on first use and stored
under the guild id. -/
theorem no_session_requires_voice_channel (env : Env) (i : Interaction)
    (subs : Registry) (gid ch : String)
    (hC : i.isCommand = true) (hG : i.guildId = some gid) (hN : i.commandName = "play")
    (hs : regGet subs gid = none) :
    (i.isGuildMember = false ∨ i.voiceChannel = none →
      handleInteraction env i subs
        = ⟨subs, [], [Act.deferReply, Act.followUp joinPromptMsg]⟩)
    ∧ (i.isGuildMember = true → i.voiceChannel = some ch →
        (regGet (handleInteraction env i subs).registry gid).isSome = true) := by
  have hH : handleInteraction env i subs = handlePlay env i gid subs := by
    unfold handleInteraction
    rw [hC, hG]
    simp [hN]
  constructor
  · intro hno
    rw [hH]
    unfold handlePlay
    rcases hno with hm | hv
    · simp [acquireSub, hs, hm]
    · cases hm : i.isGuildMember <;> simp [acquireSub, hs, hm, hv]
  · intro hm hv
    rw [hH]
    unfold handlePlay
    have hA : acquireSub i gid subs
        = (some (newSubscription ch), regSet subs gid (newSubscription ch),
           [Act.joinVoice ch]) := by
      simp [acquireSub, hs, hm, hv]
    rw [hA]
    cases hE : env.entersStateReady
    · simp [hE, regGet_regSet_self]
    · cases hRS : resolveSong env i.song with
      | none => simp [hE, hRS, regGet_regSet_self]
      | some url =>
        cases hT : env.trackFrom url with
        | none => simp [hE, hRS, hT, regGet_regSet_self]
        | some tr => simp [hE, hRS, hT, regGet_regSet_self]

/-- Closed witness for C6: a play command from a requester outside any voice
channel, against an empty registry. -/
theorem no_session_requires_voice_channel_witness :
    handleInteraction sampleEnvOk { playI with voiceChannel := none } []
      = ⟨[], [], [Act.deferReply, Act.followUp joinPromptMsg]⟩ :=
  (no_session_requires_voice_channel sampleEnvOk { playI with voiceChannel := none } [] gidA
    chA rfl rfl rfl rfl).1 (Or.inr rfl)

/-- C5: in the play branch a track is enqueued only after the connection has
been observed Ready within the 20-second bound: when the readiness wait fails
no enqueue happens, and any trace containing an enqueue places the Ready
observation and the track resolution strictly before it (after the reply
deferral and the optional channel join). -/
theorem enqueue_only_after_ready (env : Env) (i : Interaction) (subs : Registry)
    (gid : String)
    (hC : i.isCommand = true) (hG : i.guildId = some gid) (hN : i.commandName = "play") :
    (env.entersStateReady = false →
      ∀ t, Act.enqueued t ∉ (handleInteraction env i subs).actions)
    ∧ (∀ t, Act.enqueued t ∈ (handleInteraction env i subs).actions →
        env.entersStateReady = true
        ∧ ∃ pre url mid,
            (handleInteraction env i subs).actions
              = Act.deferReply :: pre
                  ++ Act.readyObserved :: Act.trackResolved url :: Act.enqueued t :: mid
            ∧ (pre = [] ∨ ∃ ch, pre = [Act.joinVoice ch])) := by
  have hH : handleInteraction env i subs = handlePlay env i gid subs := by
    unfold handleInteraction
    rw [hC, hG]
    simp [hN]
  rw [hH]
  unfold handlePlay
  rcases acquireSub_cases i gid subs with ⟨s, hg, hA⟩ | ⟨hg, ch, hm, hv, hA⟩ | ⟨hg, hA⟩ <;>
    rw [hA]
  · constructor
    · intro hRf t
      simp [hRf]
    · intro t hmem
      cases hE : env.entersStateReady with
      | false => simp [hE] at hmem
      | true =>
        refine ⟨rfl, ?_⟩
        cases hRS : resolveSong env i.song with
        | none => simp [hE, hRS] at hmem
        | some url =>
          cases hT : env.trackFrom url with
          | none => simp [hE, hRS, hT] at hmem
          | some tr =>
            have ht : t = tr := by
              rcases enqueue_acts (readySub s) tr with he | ⟨u, he⟩
              · simp [hE, hRS, hT, he] at hmem
                exact hmem
              · simp [hE, hRS, hT, he] at hmem
                exact hmem
            subst ht
            exact ⟨[], url,
              ((readySub s).enqueue t).2 ++ [Act.followUp (enqueuedMsg t)],
              by simp [hE, hRS, hT], Or.inl rfl⟩
  · constructor
    · intro hRf t
      simp [hRf]
    · intro t hmem
      cases hE : env.entersStateReady with
      | false => simp [hE] at hmem
      | true =>
        refine ⟨rfl, ?_⟩
        cases hRS : resolveSong env i.song with
        | none => simp [hE, hRS] at hmem
        | some url =>
          cases hT : env.trackFrom url with
          | none => simp [hE, hRS, hT] at hmem
          | some tr =>
            have ht : t = tr := by
              rcases enqueue_acts (readySub (newSubscription ch)) tr with he | ⟨u, he⟩
              · simp [hE, hRS, hT, he] at hmem
                exact hmem
              · simp [hE, hRS, hT, he] at hmem
                exact hmem
            subst ht
            exact ⟨[Act.joinVoice ch], url,
              ((readySub (newSubscription ch)).enqueue t).2
                ++ [Act.followUp (enqueuedMsg t)],
              by simp [hE, hRS, hT], Or.inr ⟨ch, rfl⟩⟩
  · constructor
    · intro hRf t
      simp
    · intro t hmem
      simp at hmem

/-- Closed witness for C5, instantiated where the readiness wait times out. -/
theorem enqueue_only_after_ready_witness :
    (sampleEnvTimeout.entersStateReady = false →
      ∀ t, Act.enqueued t ∉ (handleInteraction sampleEnvTimeout playI subsOne).actions)
    ∧ (∀ t, Act.enqueued t ∈ (handleInteraction sampleEnvTimeout playI subsOne).actions →
        sampleEnvTimeout.entersStateReady = true
        ∧ ∃ pre url mid,
            (handleInteraction sampleEnvTimeout playI subsOne).actions
              = Act.deferReply :: pre
                  ++ Act.readyObserved :: Act.trackResolved url :: Act.enqueued t :: mid
            ∧ (pre = [] ∨ ∃ ch, pre = [Act.joinVoice ch])) :=
  enqueue_only_after_ready sampleEnvTimeout playI subsOne gidA rfl rfl rfl

/-- C7: the skip branch only stops the audio player and confirms; the registry
(and hence the stored queue) is returned untouched, all without reading the
session contents. Advancement happens only in the spec-modelled Idle-transition
reaction, which pops the queue front and plays it, or stays Idle on an empty
queue. -/
theorem skip_delegates_to_stop (env : Env) (i : Interaction) (subs : Registry)
    (gid : String) (s : MusicSubscription)
    (hC : i.isCommand = true) (hG : i.guildId = some gid) (hN : i.commandName = "skip")
    (hs : regGet subs gid = some s) :
    handleInteraction env i subs = ⟨subs, [], [Act.playerStop, Act.reply skippedMsg]⟩
    ∧ regGet (handleInteraction env i subs).registry gid = some s
    ∧ (∀ t rest, s.queue = t :: rest →
        MusicSubscription.onIdle s
          = ({ s with
                queue := rest
                playerStatus := PlayerStatus.Playing
                current := some t },
             [Act.invokeCb t.title CbKind.onStart]))
    ∧ (s.queue = [] →
        MusicSubscription.onIdle s
          = ({ s with playerStatus := PlayerStatus.Idle, current := none }, [])) := by
  have hH : handleInteraction env i subs
      = ⟨subs, [], [Act.playerStop, Act.reply skippedMsg]⟩ := by
    unfold handleInteraction
    rw [hC, hG]
    simp [hN, hs, show ("skip" : String) ≠ "play" by decide]
  refine ⟨hH, ?_, ?_, ?_⟩
  · rw [hH]
    exact hs
  · intro t rest hq
    unfold MusicSubscription.onIdle
    rw [hq]
  · intro hq
    unfold MusicSubscription.onIdle
    rw [hq]

/-- Closed witness for C7 against a live session with a two-track queue. -/
theorem skip_delegates_to_stop_witness :
    handleInteraction sampleEnvOk { playI with commandName := "skip" } subsOne
      = ⟨subsOne, [], [Act.playerStop, Act.reply skippedMsg]⟩ :=
  (skip_delegates_to_stop sampleEnvOk { playI with commandName := "skip" } subsOne gidA
    sampleSub rfl rfl rfl (by decide)).1

/-- C8: the queue command only replies; the registry, and hence the queue, is
returned untouched. The reply lists at most the first five pending tracks, in
queue order (the listing of the whole queue equals the listing of its first
five elements), reports the current track title while the player is not Idle,
and reports that nothing is playing while it is Idle. -/
theorem queue_query_readonly_first_five (env : Env) (i : Interaction) (subs : Registry)
    (gid : String) (s : MusicSubscription)
    (hC : i.isCommand = true) (hG : i.guildId = some gid) (hN : i.commandName = "queue")
    (hs : regGet subs gid = some s) :
    handleInteraction env i subs = ⟨subs, [], [Act.reply (queueReplyMsg s)]⟩
    ∧ queueListing s.queue = queueListing (s.queue.take 5)
    ∧ (s.queue.take 5).length ≤ 5
    ∧ (s.playerStatus = PlayerStatus.Idle →
        queueReplyMsg s
          = nothingPlayingMsg ++ newlineStr ++ newlineStr ++ queueListing s.queue)
    ∧ (∀ t, s.playerStatus ≠ PlayerStatus.Idle → s.current = some t →
        queueReplyMsg s
          = "Playing **" ++ t.title ++ "**" ++ newlineStr ++ newlineStr
              ++ queueListing s.queue) := by
  refine ⟨?_, ?_, ?_, ?_, ?_⟩
  · unfold handleInteraction
    rw [hC, hG]
    simp [hN, hs, show ("queue" : String) ≠ "play" by decide,
      show ("queue" : String) ≠ "skip" by decide]
  · simp [queueListing, List.take_take]
  · simp
  · intro hIdle
    simp [queueReplyMsg, currentMsg, hIdle]
  · intro t hne ht
    simp [queueReplyMsg, currentMsg, hne, ht]

/-- Closed witness for C8 against a live session playing one track with two
queued. -/
theorem queue_query_readonly_first_five_witness :
    handleInteraction sampleEnvOk { playI with commandName := "queue" } subsOne
      = ⟨subsOne, [], [Act.reply (queueReplyMsg sampleSub)]⟩ :=
  (queue_query_readonly_first_five sampleEnvOk { playI with commandName := "queue" }
    subsOne gidA sampleSub rfl rfl rfl (by decide)).1

/-- C4: the leave branch destroys the connection (the torn-down session is in
the Destroyed connection state), discards the whole queue while the action
trace contains no callback invocation at all, and deletes the guild entry from
the registry; a subsequent play request for the same guild from a requester in
a voice channel finds no session and constructs a fresh one (empty queue,
Connecting) which is stored under the guild id. -/
theorem leave_destroys_discards_removes (env env2 : Env) (i i2 : Interaction)
    (subs : Registry) (gid ch : String) (s : MusicSubscription)
    (hC : i.isCommand = true) (hG : i.guildId = some gid) (hN : i.commandName = "leave")
    (hs : regGet subs gid = some s)
    (hC2 : i2.isCommand = true) (hG2 : i2.guildId = some gid)
    (hN2 : i2.commandName = "play") (hm2 : i2.isGuildMember = true)
    (hv2 : i2.voiceChannel = some ch) (hR2 : env2.entersStateReady = false) :
    handleInteraction env i subs
      = ⟨regDelete subs gid, [MusicSubscription.onLeave s],
         [Act.connDestroy, Act.reply leftMsg]⟩
    ∧ (MusicSubscription.onLeave s).connState = ConnState.Destroyed
    ∧ (MusicSubscription.onLeave s).queue = []
    ∧ (∀ u k, Act.invokeCb u k ∉ (handleInteraction env i subs).actions)
    ∧ regGet (regDelete subs gid) gid = none
    ∧ handleInteraction env2 i2 (regDelete subs gid)
        = ⟨regSet (regDelete subs gid) gid (newSubscription ch), [],
           [Act.deferReply, Act.joinVoice ch, Act.followUp timeoutMsg]⟩
    ∧ regGet (regSet (regDelete subs gid) gid (newSubscription ch)) gid
        = some (newSubscription ch)
    ∧ (newSubscription ch).queue = []
    ∧ (newSubscription ch).connState = ConnState.Connecting := by
  have hH : handleInteraction env i subs
      = ⟨regDelete subs gid, [MusicSubscription.onLeave s],
         [Act.connDestroy, Act.reply leftMsg]⟩ := by
    unfold handleInteraction
    rw [hC, hG]
    simp [hN, hs, show ("leave" : String) ≠ "play" by decide,
      show ("leave" : String) ≠ "skip" by decide,
      show ("leave" : String) ≠ "queue" by decide,
      show ("leave" : String) ≠ "pause" by decide,
      show ("leave" : String) ≠ "resume" by decide]
  refine ⟨hH, rfl, rfl, ?_, regGet_regDelete_self subs gid, ?_,
    regGet_regSet_self (regDelete subs gid) gid (newSubscription ch), rfl, rfl⟩
  · intro u k
    rw [hH]
    simp
  · unfold handleInteraction
    rw [hC2, hG2]
    simp only [hN2, if_pos]
    unfold handlePlay
    have hA : acquireSub i2 gid (regDelete subs gid)
        = (some (newSubscription ch),
           regSet (regDelete subs gid) gid (newSubscription ch), [Act.joinVoice ch]) := by
      simp [acquireSub, regGet_regDelete_self, hm2, hv2]
    rw [hA]
    simp [hR2]

/-- Closed witness for C4: leaving a guild that holds a live session. -/
theorem leave_destroys_discards_removes_witness :
    handleInteraction sampleEnvOk { playI with commandName := "leave" } subsOne
      = ⟨regDelete subsOne gidA, [MusicSubscription.onLeave sampleSub],
         [Act.connDestroy, Act.reply leftMsg]⟩ :=
  (leave_destroys_discards_removes sampleEnvOk sampleEnvTimeout
    { playI with commandName := "leave" } playI subsOne gidA chA sampleSub
    rfl rfl rfl (by decide) rfl rfl rfl rfl rfl rfl).1
